import Mathlib

/-!
Verification development for the UPS charging test-bench scripts
(`charging.py`, `charging_working.py`, `Working_Rasp-Windows/main_test.py`,
`Working_Rasp-Windows/wt310e_driver.py`).

The Python scripts are shallowly embedded: pure fragments become Lean
functions on `List Char` / `ℚ`; effectful fragments (serial reads, CSV
appends, shutdown steps) become explicit state passing over lists that
record the events.  Quantities measured by the instruments are modelled
as rationals, since the scripts only compare, negate and take absolute
values of them.
-/

namespace Charging

/-! ### Character/string helpers mirroring Python `str` operations -/

/-- Python `str.split(",")` on a character list: splits at every separator,
keeping empty chunks (`"".split(",") == [""]`, `"1,,2".split(",") == ["1","","2"]`). -/
def splitChar (sep : Char) : List Char → List (List Char)
  | [] => [[]]
  | c :: rest =>
    match splitChar sep rest with
    | [] => [[]]
    | h :: t => if c = sep then [] :: h :: t else (c :: h) :: t

/-- Whitespace characters removed by Python `str.strip()` (the ASCII ones
that can occur in an instrument reply). -/
def pyIsSpace (c : Char) : Bool :=
  c = ' ' || c = '\t' || c = '\n' || c = '\r' || c = '\x0b' || c = '\x0c'

/-- Python `str.strip()`: drop leading and trailing whitespace. -/
def stripChars (l : List Char) : List Char :=
  ((l.dropWhile pyIsSpace).reverse.dropWhile pyIsSpace).reverse

/-- Decimal value of a digit list (`digitsVal ['1','2'] = 12`). -/
def digitsVal (l : List Char) : Nat :=
  l.foldl (fun a c => 10 * a + (c.toNat - 48)) 0

/-- `natDigits? l` parses a non-empty all-digit list, as Python does for the
integer/fraction/exponent parts of a float literal. -/
def natDigits? (l : List Char) : Option Nat :=
  if l ≠ [] ∧ l.all Char.isDigit then some (digitsVal l) else none

/-- Fixed-point part of a Python float literal: `123`, `123.`, `.5`, `1.5`.
Returns its rational value. -/
def parseFixed? (l : List Char) : Option ℚ :=
  let ip := l.takeWhile Char.isDigit
  match l.dropWhile Char.isDigit with
  | [] => if ip = [] then none else some (digitsVal ip)
  | '.' :: fp =>
    if fp.all Char.isDigit ∧ (ip ≠ [] ∨ fp ≠ []) then
      some ((digitsVal ip : ℚ) + (digitsVal fp : ℚ) / (10 : ℚ) ^ fp.length)
    else none
  | _ => none

/-- Optional sign in front of a numeric part. -/
def parseSign : List Char → (ℚ × List Char)
  | '-' :: rest => (-1, rest)
  | '+' :: rest => (1, rest)
  | l => (1, l)

/-- Signed fixed-point part. -/
def parseSignedFixed? (l : List Char) : Option ℚ :=
  let (sg, rest) := parseSign l
  (parseFixed? rest).map (sg * ·)

/-- Signed integer exponent after `e`/`E`. -/
def parseExp? (l : List Char) : Option ℤ :=
  let (sg, rest) := parseSign l
  (natDigits? rest).map (fun n => if sg < 0 then -(n : ℤ) else (n : ℤ))

/-- Split a float literal at the first `e`/`E` (mantissa, exponent?). -/
def splitExp : List Char → List Char × Option (List Char)
  | [] => ([], none)
  | c :: rest =>
    if c = 'e' ∨ c = 'E' then ([], some rest)
    else
      let (m, e) := splitExp rest
      (c :: m, e)

/-- Model of Python `float(s)` on the decimal-literal fragment the meters
emit: optional sign, digits with optional point, optional `e`/`E` exponent
(`inf`/`nan` and underscores never occur in instrument replies and are not
modelled).  `none` models `float` raising `ValueError`. -/
def pyFloat? (l : List Char) : Option ℚ :=
  match splitExp l with
  | (m, none) => parseSignedFixed? m
  | (m, some e) =>
    match parseSignedFixed? m, parseExp? e with
    | some q, some z => some (q * (10 : ℚ) ^ z)
    | _, _ => none

/-! ### Meter response parsing (`read_wt310e` in `charging.py`) -/

/-- `parts = [p.strip() for p in raw_line.split(",") if p.strip() != ""]`:
the non-empty stripped comma-separated fields of a raw response line. -/
def respParts (raw : List Char) : List (List Char) :=
  ((splitChar ',' raw).map stripChars).filter (· ≠ [])

/-- The failure modes of one parse of a raw line, mirroring the `ValueError`s
raised inside `read_wt310e`. -/
inductive ParseErr
  | emptyResponse
  | incomplete (raw : List Char)
  | badFloat (field : List Char)
  deriving DecidableEq, Repr

/-- Parse the `(V, I, P)` triple from a raw line as `read_wt310e` does:
fewer than 3 non-empty fields raises `incomplete`; otherwise
`float(parts[0]), float(parts[1]), float(parts[2])` (extra fields unused). -/
def parseTriple (raw : List Char) : ParseErr ⊕ (ℚ × ℚ × ℚ) :=
  let parts := respParts raw
  match parts with
  | p0 :: p1 :: p2 :: _ =>
    match pyFloat? p0 with
    | none => .inl (.badFloat p0)
    | some v =>
      match pyFloat? p1 with
      | none => .inl (.badFloat p1)
      | some i =>
        match pyFloat? p2 with
        | none => .inl (.badFloat p2)
        | some p => .inr (v, i, p)
  | _ => .inl (.incomplete raw)

/-! ### The retry loop of `read_wt310e` (`charging.py`, lines 245–317)

The serial port is modelled as the list of reply lines the instrument will
deliver, in order; `wt_query` pops the next one, and an exhausted list (or a
stored empty line) models a timeout that yields an empty reply. -/

/-- `wt_query(ser, ":NUM:NORM:VAL?")`: pop the next pending reply
(empty when the instrument times out / the stream is exhausted). -/
def wt_query (stream : List (List Char)) : List Char × List (List Char) :=
  (stream.headD [], stream.tail)

/-- The inner `for _ in range(n)` loop of `read_wt310e`: query up to `n`
times, stopping at the first non-empty reply; `raw_line` keeps the last
reply read (empty when all `n` were blank). -/
def takeRawLine : Nat → List (List Char) → List Char × List (List Char)
  | 0, s => ([], s)
  | n + 1, s =>
    let (line, s') := wt_query s
    if line ≠ [] then (line, s') else takeRawLine n s'

/-- One attempt of `read_wt310e`'s `try:` body: fetch a raw line (up to 3
queries skipping blank replies), raise `empty response line` when it is
still empty, otherwise parse the triple. -/
def attemptOnce (s : List (List Char)) : (ParseErr ⊕ (ℚ × ℚ × ℚ)) × List (List Char) :=
  let (raw, s') := takeRawLine 3 s
  if raw = [] then (.inl .emptyResponse, s') else (parseTriple raw, s')

/-- Result of `read_wt310e`: the parsed triple, or the `RuntimeError` raised
after exhausting the retries, carrying `last_error` (the failing attempt's
number and diagnostic; `none` models the initial `last_error = None`). -/
inductive ReadResult
  | ok (v i p : ℚ)
  | exhausted (last : Option (Nat × ParseErr))
  deriving DecidableEq

/-- Outcome of `read_wt310e` together with `backoffs`, the number of
`time.sleep(0.2)` calls executed in the `except` handlers (one after each
failed attempt).  The stabilizing sleep at the start of each attempt and the
0.05 s blank-skip sleeps do not affect control flow and are not recorded. -/
structure ReadOutcome where
  result : ReadResult
  backoffs : Nat
  deriving DecidableEq

/-- The `for attempt in range(1, retries + 1)` loop of `read_wt310e`,
by remaining fuel: `fuel` attempts remain, the current one is numbered
`attempt`, `last` is the saved `last_error`. -/
def readLoop : Nat → Nat → List (List Char) → Option (Nat × ParseErr) → ReadOutcome
  | 0, _, _, last => ⟨.exhausted last, 0⟩
  | fuel + 1, attempt, s, _ =>
    match attemptOnce s with
    | (.inr (v, i, p), _) => ⟨.ok v i p, 0⟩
    | (.inl e, s') =>
      let r := readLoop fuel (attempt + 1) s' (some (attempt, e))
      ⟨r.result, r.backoffs + 1⟩

/-- `read_wt310e(ser, retries=5)` on a stream of pending replies. -/
def read_wt310e (s : List (List Char)) (retries : Nat := 5) : ReadOutcome :=
  readLoop retries 1 s none

/-- The outcomes of the successive attempts on a stream (each attempt
consumes the replies the previous attempts read). -/
def attemptSeq : Nat → List (List Char) → List (ParseErr ⊕ (ℚ × ℚ × ℚ))
  | 0, _ => []
  | n + 1, s => (attemptOnce s).1 :: attemptSeq n (attemptOnce s).2

/-! ### Rows, `log_row` and the `Running` loop (`charging.py`, lines 441–505) -/

/-- The raw values one tick obtains from the two instruments:
`Ov, Oc, Op = read_wt310e(ser)` and the three `dc.query("MEAS:…?")` scalars. -/
structure TickData where
  ov : ℚ
  oc : ℚ
  op : ℚ
  iv : ℚ
  ic : ℚ
  ip : ℚ
  deriving DecidableEq

/-- One CSV data row of `charging.py` / `main_test.py` (the timestamp column
is an opaque wall-clock string and is not modelled). -/
structure Row where
  iv : ℚ
  ic : ℚ
  ip : ℚ
  ov : ℚ
  oc : ℚ
  op : ℚ
  deriving DecidableEq

/-- The row `log_row` appends: `[timestamp, Iv, Ic, Ip, Ov, abs(Oc), abs(Op)]`
(`charging.py` lines 453–459; `main_test.py` lines 295–319 build the same row). -/
def log_row (t : TickData) : Row :=
  ⟨t.iv, t.ic, t.ip, t.ov, |t.oc|, |t.op|⟩

/-- `log_row` returns `Ov`, the raw (un-normalized) output voltage, which the
loop stores in `voltage` and tests against `STOP_VOLTAGE`. -/
def log_row_ret (t : TickData) : ℚ := t.ov

/-- `voltage >= STOP_VOLTAGE` (`charging.py` line 497). -/
def stopReached (voltage sv : ℚ) : Bool := sv ≤ voltage

/-- The `Running` loop of `charging.py` over the successive ticks' data:
each tick runs `log_row` (append row to CSV, append `(Ov, abs(Oc))` to the
plot arrays, return `Ov`) and only then tests the stop condition, breaking
when it holds.  Returns the final CSV rows, plot points, and whether the
loop exited via the stop condition (`false` = ran out of supplied ticks,
i.e. the run was still going). -/
def runLoop (sv : ℚ) : List TickData → List Row → List (ℚ × ℚ) →
    List Row × List (ℚ × ℚ) × Bool
  | [], csv, plot => (csv, plot, false)
  | t :: rest, csv, plot =>
    let csv' := csv ++ [log_row t]
    let plot' := plot ++ [(t.ov, |t.oc|)]
    let voltage := log_row_ret t
    if stopReached voltage sv then (csv', plot', true)
    else runLoop sv rest csv' plot'

/-- The 4-column row of `charging_working.py`'s `log_row` (lines 109–120):
`[timestamp, v, i, p]`, the values exactly as returned by `read_wt310e`,
with no sign normalization. -/
structure RowW where
  v : ℚ
  i : ℚ
  p : ℚ
  deriving DecidableEq

/-- `charging_working.py` `log_row`: writes the raw triple unchanged. -/
def log_row_working (v i p : ℚ) : RowW := ⟨v, i, p⟩

/-! ### Tick scheduling (`charging.py`, lines 473–505) -/

/-- `next_log_time` after `k` logged ticks: initialized to `start_time` and
incremented by `LOG_INTERVAL` after every `log_row` (lines 475, 493). -/
def nextLogTime (start interval : ℚ) : Nat → ℚ
  | 0 => start
  | k + 1 => nextLogTime start interval k + interval

/-- The wall-clock time at which tick `k` fires.  A tick fires at the first
loop check at or after its scheduled `next_log_time`; the loop can check
again only once the previous tick's processing is done, so tick `k + 1`
fires at `max (schedule) (previous fire + lat k)`, where `lat k` is tick
`k`'s total processing latency (instrument reads, CSV/plot update and the
0.1 s yield). -/
def fireTime (start interval : ℚ) (lat : Nat → ℚ) : Nat → ℚ
  | 0 => start
  | k + 1 => max (nextLogTime start interval (k + 1)) (fireTime start interval lat k + lat k)

/-! ### Instrument detection -/

/-- Python's `needle in hay` substring test. -/
def leadsWith : List Char → List Char → Bool
  | [], _ => true
  | _ :: _, [] => false
  | a :: as, b :: bs => a = b && leadsWith as bs

/-- Python's `needle in hay` substring test. -/
def hasSub (needle : List Char) : List Char → Bool
  | [] => needle = []
  | c :: rest => leadsWith needle (c :: rest) || hasSub needle rest

/-- Outcome of probing one `/dev/ttyUSB*` device in `detect_wt310e`
(`charging.py` lines 83–113): `raised` models an exception anywhere in the
per-device `try` block (open, write, read, close); `resp s` a successfully
read identification line. -/
inductive SerProbe
  | raised
  | resp (s : List Char)
  deriving DecidableEq

/-- `detect_wt310e` (`charging.py`): probe the sorted candidate devices in
order; an exception on one device is swallowed (`except Exception: pass`)
and probing continues; the first device whose reply contains `YOKOGAWA` or
`WT310` wins.  Returns the index of the matched device. -/
def detect_wt310e : List SerProbe → Option Nat
  | [] => none
  | .raised :: rest => (detect_wt310e rest).map Nat.succ
  | .resp s :: rest =>
    if hasSub "YOKOGAWA".data s || hasSub "WT310".data s then some 0
    else (detect_wt310e rest).map Nat.succ

/-- Outcome of probing one VISA resource in `detect_spe6103`
(`charging.py` lines 119–161, `main_test.py` lines 79–129):
`notSerialName` = the resource id fails the `ASRL…INSTR` name filter;
`openFail` = `rm.open_resource` raises (nothing opened);
`queryFail` = the resource opened but configuring it or `*IDN?` raised;
`idn s` = open and query succeeded with reply `s`. -/
inductive VisaProbe
  | notSerialName
  | openFail
  | queryFail
  | idn (s : List Char)
  deriving DecidableEq

/-- Whether a probe's reply matches `"SPE" in idn or "6103" in idn`. -/
def speMatches : VisaProbe → Bool
  | .idn s => hasSub "SPE".data s || hasSub "6103".data s
  | _ => false

/-- What `detect_spe6103` leaves behind: the index of the matched resource
(whose handle is intentionally kept open and returned), and the indices of
handles that were opened and never closed. -/
structure DetectResult where
  found : Option Nat
  leftOpen : List Nat
  deriving DecidableEq

/-- Shift a sub-scan's indices past the current candidate. -/
def bumpDetect (r : DetectResult) : DetectResult :=
  ⟨r.found.map Nat.succ, r.leftOpen.map Nat.succ⟩

/-- `detect_spe6103` (`charging.py`): for each `ASRL…INSTR` resource, open,
configure, query `*IDN?`; on a match return the (open) handle; on a
non-match `dc.close()` and continue; on an exception `pass` and continue —
note the `except` branch does not close a handle opened before the query
raised, so that handle stays open. -/
def detect_spe6103 : List VisaProbe → DetectResult
  | [] => ⟨none, []⟩
  | .notSerialName :: rest => bumpDetect (detect_spe6103 rest)
  | .openFail :: rest => bumpDetect (detect_spe6103 rest)
  | .queryFail :: rest =>
    let r := bumpDetect (detect_spe6103 rest)
    ⟨r.found, 0 :: r.leftOpen⟩
  | .idn s :: rest =>
    if hasSub "SPE".data s || hasSub "6103".data s then ⟨some 0, []⟩
    else bumpDetect (detect_spe6103 rest)

/-- The indices, among the candidates actually probed (those before the
first match), whose probe opened a handle that is never closed. -/
def leakedIdx : List VisaProbe → List Nat
  | [] => []
  | p :: rest =>
    if speMatches p then []
    else
      let r := (leakedIdx rest).map Nat.succ
      if p = .queryFail then 0 :: r else r

/-- The commands `main` (`charging.py` lines 337–371) sends to the DC source:
when detection returned no handle it prints and returns (no command is ever
sent); otherwise it sends the configure/enable sequence. -/
def mainSourceCommands (det : Option Nat) : List (List Char) :=
  match det with
  | none => []
  | some _ => ["VOLT 12.00".data, "CURR 2.00".data, "OUTP ON".data]

/-- Outcome of one VISA candidate in `WT310E.connect`
(`wt310e_driver.py` lines 32–51): `notUSB` = filtered out by `"USB" in res`;
`raised` = `open_resource` or the `*IDN?` query raised — and since the
`try/except` wraps the whole `for` loop, this aborts the entire VISA scan;
`idn s` = query succeeded with reply `s`. -/
inductive UsbProbe
  | notUSB
  | raised
  | idn (s : List Char)
  deriving DecidableEq

/-- Result of the driver's VISA scan. -/
inductive VisaScan
  | found (i : Nat)
  | exhaustedList
  | aborted
  deriving DecidableEq

/-- Shift a sub-scan's found index past the current candidate. -/
def bumpScan : VisaScan → VisaScan
  | .found i => .found (i + 1)
  | x => x

/-- The VISA phase of `WT310E.connect`: candidates are scanned in order, but
the first candidate that raises aborts the whole scan (the handler is
outside the loop). -/
def wtVisaScan : List UsbProbe → VisaScan
  | [] => .exhaustedList
  | .notUSB :: rest => bumpScan (wtVisaScan rest)
  | .raised :: _ => .aborted
  | .idn s :: rest =>
    if hasSub "YOKOGAWA".data s then .found 0
    else bumpScan (wtVisaScan rest)

/-- `WT310E.connect`: try the VISA scan; when it does not find the meter
(no match, or scan aborted by an exception), fall back to the single
USBTMC resource, `usb` being its `*IDN?` reply (`none` = it raised or the
module is unavailable).  Returns the method's `True`/`False`. -/
def wtConnect (visa : List UsbProbe) (usb : Option (List Char)) : Bool :=
  match wtVisaScan visa with
  | .found _ => true
  | _ =>
    match usb with
    | some s => hasSub "YOKOGAWA".data s
    | none => false

/-! ### Shutdown sequences (`charging.py` lines 515–565,
`main_test.py` lines 353–401) -/

/-- The distinct steps appearing in the two `finally:` blocks. -/
inductive ShutStep
  | disableOutput
  | closeSource
  | closeMeter
  | savePlot
  | closePlot
  | reportCSV
  deriving DecidableEq

/-- Run a `finally:` block given which steps fail.  Each entry pairs a step
with whether a failure of it is contained (it sits in its own
`try/except: pass`, or — for `wt.close()` — swallows internally, or — for
the closing `print`s — cannot raise).  A failing uncontained step raises
out of the block: later steps do not run.  Returns the steps attempted, in
order, and whether the block completed. -/
def runSteps (fails : ShutStep → Bool) : List (ShutStep × Bool) → List ShutStep × Bool
  | [] => ([], true)
  | (s, contained) :: rest =>
    if fails s ∧ ¬contained then ([s], false)
    else
      let (att, ok) := runSteps fails rest
      (s :: att, ok)

/-- `charging.py`'s `finally:`: `OUTP OFF`, `dc.close(); rm.close()`,
`ser.close()`, `plt.ioff(); plt.close(fig)` — each in `try/except: pass` —
then the closing `print`s.  (It saves no plot image.) -/
def chargingShutdownSteps : List (ShutStep × Bool) :=
  [(.disableOutput, true), (.closeSource, true), (.closeMeter, true),
   (.closePlot, true), (.reportCSV, true)]

/-- `charging.py` shutdown under a given failure pattern. -/
def chargingShutdown (fails : ShutStep → Bool) : List ShutStep × Bool :=
  runSteps fails chargingShutdownSteps

/-- `main_test.py`'s `finally:`: guarded `OUTP OFF`; `wt.close()` (swallows
internally); guarded `dc.close(); rm.close()`; then — outside any `try` —
`fig.savefig(...)`, `plt.ioff(); plt.close(fig)`, and the closing `print`s. -/
def mainTestShutdownSteps : List (ShutStep × Bool) :=
  [(.disableOutput, true), (.closeMeter, true), (.closeSource, true),
   (.savePlot, false), (.closePlot, false), (.reportCSV, true)]

/-- `main_test.py` shutdown under a given failure pattern. -/
def mainTestShutdown (fails : ShutStep → Bool) : List ShutStep × Bool :=
  runSteps fails mainTestShutdownSteps

/-- The step order claimed by the specification: disable source, close meter,
close source, finalize plot artifact, report CSV path. -/
def specShutdownOrder : List ShutStep :=
  [.disableOutput, .closeMeter, .closeSource, .savePlot, .closePlot, .reportCSV]

/-! ### Helper lemmas -/

/-- Every row the `Running` loop appends comes from `log_row` on one of the
processed ticks. -/
theorem runLoop_rows (sv : ℚ) :
    ∀ (ticks : List TickData) (csv : List Row) (plot : List (ℚ × ℚ)) (r : Row),
      r ∈ (runLoop sv ticks csv plot).1 → r ∈ csv ∨ ∃ t ∈ ticks, r = log_row t := by
  intro ticks
  induction ticks with
  | nil => intro csv plot r hr; exact Or.inl hr
  | cons t rest ih =>
    intro csv plot r hr
    rw [runLoop] at hr
    by_cases hstop : stopReached (log_row_ret t) sv
    · simp only [hstop, if_true] at hr
      rcases List.mem_append.mp hr with h | h
      · exact Or.inl h
      · exact Or.inr ⟨t, List.mem_cons_self t rest, (List.mem_singleton.mp h)⟩
    · simp only [hstop, if_false] at hr
      rcases ih _ _ r hr with h | ⟨t', ht', he⟩
      · rcases List.mem_append.mp h with h' | h'
        · exact Or.inl h'
        · exact Or.inr ⟨t, List.mem_cons_self t rest, List.mem_singleton.mp h'⟩
      · exact Or.inr ⟨t', List.mem_cons_of_mem t ht', he⟩

end Charging

namespace Charging

/-- Claim C10: sign normalization touches only `output_current` and
`output_power`; `output_voltage` and the input-side fields are persisted as
parsed, `log_row` returns the un-normalized `Ov`, and the stop test compares
that raw value, so a negative measured output voltage never satisfies a
positive stop threshold. -/
theorem sign_normalization_frame (t : TickData) (sv : ℚ) :
    (log_row t).ov = t.ov ∧ (log_row t).iv = t.iv ∧ (log_row t).ic = t.ic ∧
    (log_row t).ip = t.ip ∧ (log_row t).oc = |t.oc| ∧ (log_row t).op = |t.op| ∧
    log_row_ret t = t.ov ∧
    (t.ov < 0 → 0 < sv → stopReached (log_row_ret t) sv = false) := by
  refine ⟨rfl, rfl, rfl, rfl, rfl, rfl, rfl, fun hneg hpos => ?_⟩
  simp only [stopReached, log_row_ret, decide_eq_false_iff_not]
  intro hle
  linarith

/-- Witness for C10: the concrete tick `(Ov, Oc, Op, Iv, Ic, Ip) =
(-1, -2, -3, 4, 5, 6)` with stop voltage `8.35`. -/
theorem sign_normalization_frame_witness :
    stopReached (log_row_ret ⟨-1, -2, -3, 4, 5, 6⟩) (835 / 100) = false :=
  (sign_normalization_frame ⟨-1, -2, -3, 4, 5, 6⟩ (835 / 100)).2.2.2.2.2.2.2
    (by norm_num) (by norm_num)

/-- Counterexample to C4: `charging_working.py`'s `log_row` persists the raw
meter triple, so with the raw reply `(8.0, -1.002, -8.02)` the stored
current column is negative. -/
theorem working_variant_negative_row :
    (log_row_working 8 (-1002 / 1000) (-802 / 100)).i = -1002 / 1000 ∧
    ¬(0 ≤ (log_row_working 8 (-1002 / 1000) (-802 / 100)).i) := by
  constructor
  · rfl
  · norm_num [log_row_working]

/-- Claim C4 (amended): in `charging.py` (and the identical row construction
of `main_test.py`) `output_current` and `output_power` are stored as absolute
magnitudes, hence every persisted row has them non-negative; the 4-column
variant `charging_working.py` stores the raw triple unnormalized. -/
theorem persisted_output_nonneg (t : TickData) (ticks : List TickData) (sv : ℚ) (r : Row) :
    ((log_row t).oc = |t.oc| ∧ (log_row t).op = |t.op| ∧
      0 ≤ (log_row t).oc ∧ 0 ≤ (log_row t).op) ∧
    (r ∈ (runLoop sv ticks [] []).1 → 0 ≤ r.oc ∧ 0 ≤ r.op) := by
  refine ⟨⟨rfl, rfl, abs_nonneg _, abs_nonneg _⟩, fun hr => ?_⟩
  rcases runLoop_rows sv ticks [] [] r hr with h | ⟨t', _, he⟩
  · simp at h
  · subst he
    exact ⟨abs_nonneg _, abs_nonneg _⟩

/-- Witness for C4 (amended): the tick with raw `(Ov, Oc, Op) = (8, -1, -5)`
is logged (8 < 8.35, so the loop continues) and its persisted row has
non-negative current and power. -/
theorem persisted_output_nonneg_witness :
    0 ≤ (Row.mk 12 2 24 8 1 5).oc ∧ 0 ≤ (Row.mk 12 2 24 8 1 5).op :=
  (persisted_output_nonneg ⟨8, -1, -5, 12, 2, 24⟩ [⟨8, -1, -5, 12, 2, 24⟩]
      (835 / 100) (Row.mk 12 2 24 8 1 5)).2
    (by norm_num [runLoop, stopReached, log_row_ret, log_row, abs_of_nonpos])

/-- Counterexample to C5: in `main_test.py` the `fig.savefig` step of the
`finally:` block is not guarded, so when it fails the CSV-path report (and
the plot close) never run; moreover `charging.py` closes the DC source
transport before the meter transport, not after as the claim orders them. -/
theorem shutdown_step_not_contained :
    mainTestShutdown (fun s => s == ShutStep.savePlot) =
      ([.disableOutput, .closeMeter, .closeSource, .savePlot], false) ∧
    ShutStep.reportCSV ∉ (mainTestShutdown (fun s => s == ShutStep.savePlot)).1 ∧
    (chargingShutdown (fun _ => false)).1 =
      [.disableOutput, .closeSource, .closeMeter, .closePlot, .reportCSV] := by
  refine ⟨?_, ?_, ?_⟩ <;> decide

/-- Claim C5 (amended): `charging.py`'s shutdown attempts, in order, disable
source, close source transport, close meter transport, close the plot, report
the CSV path — each guarded, so every step runs whatever fails (in
particular the disable step's own failure never prevents the transport
closes); `main_test.py` attempts disable, close meter, close source, save
plot, close plot, report, where the first three are guarded but a plot-save
or plot-close failure aborts the rest of the block. -/
theorem shutdown_best_effort (fails : ShutStep → Bool) :
    chargingShutdown fails =
      ([.disableOutput, .closeSource, .closeMeter, .closePlot, .reportCSV], true) ∧
    (fails .savePlot = false → fails .closePlot = false →
      mainTestShutdown fails =
        ([.disableOutput, .closeMeter, .closeSource, .savePlot, .closePlot, .reportCSV], true)) ∧
    (mainTestShutdown fails).1.take 3 = [.disableOutput, .closeMeter, .closeSource] := by
  refine ⟨?_, fun h1 h2 => ?_, ?_⟩
  · simp [chargingShutdown, chargingShutdownSteps, runSteps]
  · simp [mainTestShutdown, mainTestShutdownSteps, runSteps, h1, h2]
  · by_cases h1 : fails .savePlot <;> by_cases h2 : fails .closePlot <;>
      simp [mainTestShutdown, mainTestShutdownSteps, runSteps, h1, h2]

/-- Witness for C5 (amended): with no failing step, `main_test.py`'s shutdown
attempts every step in order and completes. -/
theorem shutdown_best_effort_witness :
    mainTestShutdown (fun _ => false) = (specShutdownOrder, true) := by
  have h := (shutdown_best_effort (fun _ => false)).2.1 rfl rfl
  simpa [specShutdownOrder] using h

/-- Counterexample to C6: in `WT310E.connect` the exception handler wraps the
whole VISA `for` loop, so a failure on the first candidate aborts probing of
the second — which would have matched — and detection fails. -/
theorem visa_scan_abort :
    wtConnect [UsbProbe.raised, UsbProbe.idn "YOKOGAWA,WT310E,12345".data] none = false ∧
    wtConnect [UsbProbe.idn "YOKOGAWA,WT310E,12345".data] none = true := by
  constructor <;> decide

/-- Claim C6 (amended): the serial probe (`detect_wt310e`) and the VISA
source probes (`detect_spe6103` in both files) swallow a per-candidate
failure and continue with the remaining candidates; the auto-detect driver's
VISA scan (`WT310E.connect`) instead aborts at the first candidate that
raises, falling back to USBTMC. -/
theorem detection_failure_containment (rest : List SerProbe) (rv : List VisaProbe)
    (ru : List UsbProbe) :
    detect_wt310e (.raised :: rest) = (detect_wt310e rest).map Nat.succ ∧
    (detect_spe6103 (.openFail :: rv)).found = ((detect_spe6103 rv).found).map Nat.succ ∧
    (detect_spe6103 (.queryFail :: rv)).found = ((detect_spe6103 rv).found).map Nat.succ ∧
    wtVisaScan (.raised :: ru) = .aborted := by
  refine ⟨rfl, ?_, ?_, rfl⟩ <;> simp [detect_spe6103, bumpDetect]

/-- Counterexample to C7: a candidate whose `*IDN?` query raises after a
successful open is never closed by `detect_spe6103`'s `except` branch, so
detection returns no handle yet leaves one open. -/
theorem detect_leak_on_query_failure :
    (detect_spe6103 [.queryFail]).found = none ∧
    (detect_spe6103 [.queryFail]).leftOpen = [0] ∧
    (detect_spe6103 [.queryFail]).leftOpen ≠ [] := by
  refine ⟨?_, ?_, ?_⟩ <;> decide

/-- Claim C7 (amended): when no candidate matches, `detect_spe6103` returns
no handle and `main` aborts before sending any configure/enable command; the
handles left open by the probing are exactly those of candidates whose query
raised after a successful open (none, when every probed candidate opens
cleanly or fails to open). -/
theorem detect_notfound_behavior (probes : List VisaProbe) :
    ((probes.all fun p => !speMatches p) = true → (detect_spe6103 probes).found = none) ∧
    (detect_spe6103 probes).leftOpen = leakedIdx probes ∧
    mainSourceCommands none = [] := by
  refine ⟨?_, ?_, rfl⟩
  · intro hall
    induction probes with
    | nil => rfl
    | cons p rest ih =>
      rw [List.all_cons, Bool.and_eq_true] at hall
      rcases p with _ | _ | _ | s
      · simp [detect_spe6103, bumpDetect, ih hall.2]
      · simp [detect_spe6103, bumpDetect, ih hall.2]
      · simp [detect_spe6103, bumpDetect, ih hall.2]
      · have hm : (hasSub "SPE".data s || hasSub "6103".data s) = false := by
          have := hall.1
          simpa [speMatches] using this
        simp [detect_spe6103, hm, bumpDetect, ih hall.2]
  · induction probes with
    | nil => rfl
    | cons p rest ih =>
      rcases p with _ | _ | _ | s
      · simp [detect_spe6103, leakedIdx, speMatches, bumpDetect, ih]
      · simp [detect_spe6103, leakedIdx, speMatches, bumpDetect, ih]
      · simp [detect_spe6103, leakedIdx, speMatches, bumpDetect, ih]
      · by_cases hm : (hasSub "SPE".data s || hasSub "6103".data s) = true
        · simp [detect_spe6103, leakedIdx, speMatches, hm]
        · simp only [Bool.not_eq_true] at hm
          simp [detect_spe6103, leakedIdx, speMatches, hm, bumpDetect, ih]

/-- Witness for C7 (amended): a probe set with one query-failure and one
non-matching reply: detection returns no handle, and the leaked handles are
exactly the query-failure's. -/
theorem detect_notfound_behavior_witness :
    (detect_spe6103 [.queryFail, .idn "OWON,XDM1041".data]).found = none ∧
    (detect_spe6103 [.queryFail, .idn "OWON,XDM1041".data]).leftOpen =
      leakedIdx [.queryFail, .idn "OWON,XDM1041".data] :=
  ⟨(detect_notfound_behavior [.queryFail, .idn "OWON,XDM1041".data]).1 (by decide),
   (detect_notfound_behavior [.queryFail, .idn "OWON,XDM1041".data]).2.1⟩

/-- With the first threshold crossing at index `k`, the `Running` loop logs
exactly ticks `0..k` and exits via the stop condition (stated with arbitrary
CSV/plot accumulators for the induction). -/
theorem runLoop_stop_general (sv : ℚ) :
    ∀ (ticks : List TickData) (k : Nat) (csv : List Row) (plot : List (ℚ × ℚ))
      (hk : k < ticks.length),
      sv ≤ (ticks.get ⟨k, hk⟩).ov →
      (∀ m (hm : m < ticks.length), m < k → (ticks.get ⟨m, hm⟩).ov < sv) →
      runLoop sv ticks csv plot =
        (csv ++ (ticks.take (k + 1)).map log_row,
         plot ++ (ticks.take (k + 1)).map (fun t => (t.ov, |t.oc|)), true) := by
  intro ticks
  induction ticks with
  | nil => intro k csv plot hk; exact absurd hk (by simp)
  | cons t rest ih =>
    intro k csv plot hk hstop hfirst
    match k with
    | 0 =>
      have hs : stopReached (log_row_ret t) sv = true := by
        simpa [stopReached, log_row_ret] using hstop
      simp [runLoop, hs]
    | k + 1 =>
      have hlt : t.ov < sv := hfirst 0 (by simp) (Nat.succ_pos k)
      have hs : stopReached (log_row_ret t) sv = false := by
        simp only [stopReached, log_row_ret, decide_eq_false_iff_not, not_le]
        exact hlt
      have hk' : k < rest.length := Nat.lt_of_succ_lt_succ hk
      have hstop' : sv ≤ (rest.get ⟨k, hk'⟩).ov := hstop
      have hfirst' : ∀ m (hm : m < rest.length), m < k → (rest.get ⟨m, hm⟩).ov < sv := by
        intro m hm hmk
        exact hfirst (m + 1) (Nat.succ_lt_succ hm) (Nat.succ_lt_succ hmk)
      rw [runLoop]
      simp only [hs, if_false, Bool.false_eq_true]
      rw [ih k _ _ hk' hstop' hfirst']
      simp [List.append_assoc]

/-- Claim C1: in `Running`, each tick appends its row and plot point and only
then evaluates `voltage >= STOP_VOLTAGE`; a run whose first threshold
crossing is at tick `k` stops exactly there, having persisted rows for ticks
`0..k` — in particular the triggering tick's row is the last CSV row at
exit. -/
theorem stop_at_first_threshold (ticks : List TickData) (sv : ℚ) (k : Nat)
    (hk : k < ticks.length) (hstop : sv ≤ (ticks.get ⟨k, hk⟩).ov)
    (hfirst : ∀ m (hm : m < ticks.length), m < k → (ticks.get ⟨m, hm⟩).ov < sv) :
    runLoop sv ticks [] [] =
      ((ticks.take (k + 1)).map log_row,
       (ticks.take (k + 1)).map (fun t => (t.ov, |t.oc|)), true) ∧
    ((runLoop sv ticks [] []).1).getLast? = some (log_row (ticks.get ⟨k, hk⟩)) := by
  have h := runLoop_stop_general sv ticks k [] [] hk hstop hfirst
  simp only [List.nil_append] at h
  refine ⟨h, ?_⟩
  rw [h]
  have hlen : ((ticks.take (k + 1)).map log_row).length = k + 1 := by
    simp [List.length_take, Nat.min_eq_left (Nat.succ_le_of_lt hk)]
  rw [List.getLast?_eq_getElem?, hlen]
  simp only [Nat.add_sub_cancel]
  rw [List.getElem?_map]
  rw [List.getElem?_take_of_lt (Nat.lt_succ_self k)]
  rw [List.getElem?_eq_getElem hk]
  simp [List.get_eq_getElem]

/-- Witness for C1: the spec's scenario — meter reply `(120.045, 1.002,
120.28)`, source `(12.01, 2.00, 24.02)`, stop voltage `8.35` — stops at the
very first tick with its row persisted. -/
theorem stop_at_first_threshold_witness :
    runLoop (835 / 100) [⟨120045 / 1000, 1002 / 1000, 12028 / 100, 1201 / 100, 2, 2402 / 100⟩]
        [] [] =
      ([⟨1201 / 100, 2, 2402 / 100, 120045 / 1000, 1002 / 1000, 12028 / 100⟩],
       [(120045 / 1000, 1002 / 1000)], true) := by
  have h := (stop_at_first_threshold
      [⟨120045 / 1000, 1002 / 1000, 12028 / 100, 1201 / 100, 2, 2402 / 100⟩]
      (835 / 100) 0 (by norm_num) (by norm_num [List.get])
      (fun m hm h0 => absurd h0 (Nat.not_lt_zero m))).1
  rw [h]
  norm_num [log_row, abs_of_nonneg]

/-- Claim C3: a raw response triggers the retry path exactly when it has
fewer than 3 non-empty comma-separated fields or one of the three fields
used fails numeric parsing; with at least 3 non-empty fields whose first
three parse, the read succeeds with their triple.  The last conjunct ties
this to the retry loop: for a non-empty raw line, the attempt outcome is
exactly the parse outcome. -/
theorem malformed_classification (raw : List Char) :
    ((parseTriple raw).isLeft = true ↔
      (respParts raw).length < 3 ∨ ∃ f ∈ (respParts raw).take 3, pyFloat? f = none) ∧
    (3 ≤ (respParts raw).length →
      (∀ f ∈ (respParts raw).take 3, (pyFloat? f).isSome = true) →
      ∃ v i p, parseTriple raw = .inr (v, i, p)) ∧
    (∀ pending, raw ≠ [] → (attemptOnce (raw :: pending)).1 = parseTriple raw) := by
  refine ⟨?_, ?_, ?_⟩
  · rcases hr : respParts raw with _ | ⟨p0, _ | ⟨p1, _ | ⟨p2, rest⟩⟩⟩
    · simp [parseTriple, hr]
    · simp [parseTriple, hr]
    · simp [parseTriple, hr]
    · rcases h0 : pyFloat? p0 with _ | v
      · simp [parseTriple, hr, h0]
      · rcases h1 : pyFloat? p1 with _ | i
        · simp [parseTriple, hr, h0, h1]
        · rcases h2 : pyFloat? p2 with _ | p
          · simp [parseTriple, hr, h0, h1, h2]
          · simp [parseTriple, hr, h0, h1, h2]
  · intro hlen hnum
    rcases hr : respParts raw with _ | ⟨p0, _ | ⟨p1, _ | ⟨p2, rest⟩⟩⟩ <;>
      rw [hr] at hlen hnum
    · exact absurd hlen (by simp)
    · exact absurd hlen (by simp)
    · exact absurd hlen (by simp)
    · have h0 := hnum p0 (by simp)
      have h1 := hnum p1 (by simp)
      have h2 := hnum p2 (by simp)
      rcases Option.isSome_iff_exists.mp h0 with ⟨v, hv⟩
      rcases Option.isSome_iff_exists.mp h1 with ⟨i, hi⟩
      rcases Option.isSome_iff_exists.mp h2 with ⟨p, hp⟩
      exact ⟨v, i, p, by simp [parseTriple, hr, hv, hi, hp]⟩
  · intro pending hne
    simp [attemptOnce, takeRawLine, wt_query, hne]

/-- Witness for C3: the reply `120.045,1.002,120.28` has three numeric
fields and parses to its triple (so it is not classified malformed). -/
theorem malformed_classification_witness :
    ∃ v i p, parseTriple "120.045,1.002,120.28".data = .inr (v, i, p) :=
  (malformed_classification "120.045,1.002,120.28".data).2.1
    (by decide) (by decide)

/-- Claim C9: empty fields are filtered before the count check, exactly the
first three remaining fields are converted and any further fields are
ignored: `"1,,2,3,4"` parses to `(1, 2, 3)`, `"1,,2"` (two non-empty fields)
is malformed, and any two raw lines with at least 3 non-empty fields and the
same first three fields parse identically. -/
theorem parse_uses_first_three_fields :
    (parseTriple "1,,2,3,4".data = .inr (1, 2, 3)) ∧
    (parseTriple "1,,2".data = .inl (.incomplete "1,,2".data)) ∧
    ∀ raw raw', 3 ≤ (respParts raw).length → 3 ≤ (respParts raw').length →
      (respParts raw).take 3 = (respParts raw').take 3 →
      parseTriple raw = parseTriple raw' := by
  refine ⟨?_, ?_, ?_⟩
  · simp [parseTriple, respParts, splitChar, stripChars, pyIsSpace, pyFloat?, splitExp,
      parseSignedFixed?, parseSign, parseFixed?, digitsVal]
  · simp [parseTriple, respParts, splitChar, stripChars, pyIsSpace]
  · intro raw raw' hlen hlen' htake
    rcases hr : respParts raw with _ | ⟨p0, _ | ⟨p1, _ | ⟨p2, rest⟩⟩⟩ <;>
      rw [hr] at hlen
    · exact absurd hlen (by simp)
    · exact absurd hlen (by simp)
    · exact absurd hlen (by simp)
    rcases hr' : respParts raw' with _ | ⟨q0, _ | ⟨q1, _ | ⟨q2, rest'⟩⟩⟩ <;>
      rw [hr'] at hlen'
    · exact absurd hlen' (by simp)
    · exact absurd hlen' (by simp)
    · exact absurd hlen' (by simp)
    rw [hr, hr'] at htake
    simp only [List.take, List.cons.injEq] at htake
    obtain ⟨h0, h1, h2, -⟩ := htake
    subst h0; subst h1; subst h2
    simp [parseTriple, hr, hr']

/-- Witness for C9: the two three-field lines `1,,2,3,4` and `1,2,3,99`
share their first three non-empty fields and parse identically. -/
theorem parse_uses_first_three_fields_witness :
    parseTriple "1,,2,3,4".data = parseTriple "1,2,3,99".data :=
  parse_uses_first_three_fields.2.2 "1,,2,3,4".data "1,2,3,99".data
    (by simp [respParts, splitChar, stripChars, pyIsSpace])
    (by simp [respParts, splitChar, stripChars, pyIsSpace])
    (by simp [respParts, splitChar, stripChars, pyIsSpace])

/-- If the first `j` attempts fail and attempt `j` (0-based) parses a
triple, the retry loop returns that triple having slept `j` backoffs. -/
theorem readLoop_success :
    ∀ (n : Nat) (a : Nat) (s : List (List Char)) (last : Option (Nat × ParseErr))
      (j : Nat) (v i p : ℚ), j < n →
      (∀ m, m < j → ((attemptSeq n s).getD m (.inl .emptyResponse)).isLeft = true) →
      (attemptSeq n s).getD j (.inl .emptyResponse) = .inr (v, i, p) →
      readLoop n a s last = ⟨.ok v i p, j⟩ := by
  intro n
  induction n with
  | zero => intro a s last j v i p hj; exact absurd hj (Nat.not_lt_zero j)
  | succ n ih =>
    intro a s last j v i p hj hfail hok
    rcases hA : attemptOnce s with ⟨res, s'⟩
    match j with
    | 0 =>
      have : res = .inr (v, i, p) := by
        have := hok
        rw [attemptSeq] at this
        simpa [hA] using this
      subst this
      rw [readLoop, hA]
    | j + 1 =>
      have hhead : res.isLeft = true := by
        have := hfail 0 (Nat.succ_pos j)
        rw [attemptSeq] at this
        simpa [hA] using this
      rcases res with e | t
      · rw [readLoop, hA]
        have hrec := ih (a + 1) s' (some (a, e)) j v i p (Nat.lt_of_succ_lt_succ hj)
          (fun m hm => by
            have := hfail (m + 1) (Nat.succ_lt_succ hm)
            rw [attemptSeq] at this
            simpa [hA] using this)
          (by
            have := hok
            rw [attemptSeq] at this
            simpa [hA] using this)
        simp [hrec]
      · exact absurd hhead (by simp)

/-- If all `n ≥ 1` attempts fail, the retry loop raises carrying the last
attempt's number and diagnostic, having slept `n` backoffs. -/
theorem readLoop_exhaust :
    ∀ (n : Nat) (a : Nat) (s : List (List Char)) (last : Option (Nat × ParseErr)),
      (∀ m, m < n + 1 → ((attemptSeq (n + 1) s).getD m (.inl .emptyResponse)).isLeft = true) →
      ∃ e, (attemptSeq (n + 1) s).getD n (.inl .emptyResponse) = .inl e ∧
        readLoop (n + 1) a s last = ⟨.exhausted (some (a + n, e)), n + 1⟩ := by
  intro n
  induction n with
  | zero =>
    intro a s last hfail
    rcases hA : attemptOnce s with ⟨res, s'⟩
    have hhead : res.isLeft = true := by
      have := hfail 0 Nat.one_pos
      rw [attemptSeq] at this
      simpa [hA] using this
    rcases res with e0 | t
    · refine ⟨e0, ?_, ?_⟩
      · rw [attemptSeq]
        simp [hA]
      · rw [readLoop, hA]
        simp [readLoop]
    · exact absurd hhead (by simp)
  | succ n ih =>
    intro a s last hfail
    rcases hA : attemptOnce s with ⟨res, s'⟩
    have hhead : res.isLeft = true := by
      have := hfail 0 (Nat.succ_pos (n + 1))
      rw [attemptSeq] at this
      simpa [hA] using this
    rcases res with e0 | t
    · obtain ⟨e, he, hr⟩ := ih (a + 1) s' (some (a, e0))
        (fun m hm => by
          have := hfail (m + 1) (Nat.succ_lt_succ hm)
          rw [attemptSeq] at this
          simpa [hA] using this)
      refine ⟨e, ?_, ?_⟩
      · rw [attemptSeq]
        simpa [hA] using he
      · rw [readLoop, hA]
        simp [hr, show a + 1 + n = a + (n + 1) from by omega]
    · exact absurd hhead (by simp)

/-- Claim C2: `read_wt310e` retries on an empty or malformed response up to
5 attempts with one 0.2 s backoff after each failed attempt; the first
attempt that yields a well-formed response returns its parsed triple (after
`j` backoffs when it is attempt `j + 1`); and when all 5 attempts fail it
raises a read-failure carrying the last attempt's number and diagnostic. -/
theorem read_retry_policy (s : List (List Char)) :
    (∀ j v i p, j < 5 →
      (∀ m, m < j → ((attemptSeq 5 s).getD m (.inl .emptyResponse)).isLeft = true) →
      (attemptSeq 5 s).getD j (.inl .emptyResponse) = .inr (v, i, p) →
      read_wt310e s = ⟨.ok v i p, j⟩) ∧
    ((∀ m, m < 5 → ((attemptSeq 5 s).getD m (.inl .emptyResponse)).isLeft = true) →
      ∃ e, (attemptSeq 5 s).getD 4 (.inl .emptyResponse) = .inl e ∧
        read_wt310e s = ⟨.exhausted (some (5, e)), 5⟩) := by
  constructor
  · intro j v i p hj hfail hok
    exact readLoop_success 5 1 s none j v i p hj hfail hok
  · intro hfail
    obtain ⟨e, he, hr⟩ := readLoop_exhaust 4 1 s none hfail
    exact ⟨e, he, hr⟩

/-- Witness for C2: a stream whose single reply parses returns its triple
with no backoff; an exhausted stream (every query times out to an empty
line) fails all 5 attempts and raises with attempt 5's diagnostic after 5
backoffs. -/
theorem read_retry_policy_witness :
    read_wt310e ["1,2,3".data] = ⟨.ok 1 2 3, 0⟩ ∧
    read_wt310e [] = ⟨.exhausted (some (5, .emptyResponse)), 5⟩ := by
  constructor
  · exact (read_retry_policy ["1,2,3".data]).1 0 1 2 3 (by norm_num)
      (fun m hm => absurd hm (Nat.not_lt_zero m))
      (by
        rw [attemptSeq]
        simp [attemptOnce, takeRawLine, wt_query, parseTriple, respParts, splitChar,
          stripChars, pyIsSpace, pyFloat?, splitExp, parseSignedFixed?, parseSign,
          parseFixed?, digitsVal])
  · obtain ⟨e, he, hr⟩ := (read_retry_policy []).2 (by decide)
    have : e = ParseErr.emptyResponse := by
      have h4 : (attemptSeq 5 ([] : List (List Char))).getD 4 (.inl .emptyResponse) =
          .inl ParseErr.emptyResponse := by decide
      rw [h4] at he
      exact (Sum.inl.injEq _ _).mp he.symm
    rwa [this] at hr

/-- Claim C8: under the absolute schedule, `next_log_time` after `k` ticks is
exactly `start + k * interval`, independent of per-tick latency; and when
every tick's processing latency is at most `L ≤ interval`, tick `k` fires
within `L` of `start + k * interval`. -/
theorem absolute_schedule_drift (start interval L : ℚ) (lat : Nat → ℚ) :
    (∀ k, nextLogTime start interval k = start + k * interval) ∧
    ((∀ k, 0 ≤ lat k ∧ lat k ≤ L) → L ≤ interval →
      ∀ k, nextLogTime start interval k ≤ fireTime start interval lat k ∧
        fireTime start interval lat k ≤ nextLogTime start interval k + L) := by
  constructor
  · intro k
    induction k with
    | zero => simp [nextLogTime]
    | succ k ih =>
      rw [nextLogTime, ih]
      push_cast
      ring
  · intro hlat hLI k
    have hL : 0 ≤ L := le_trans (hlat 0).1 (hlat 0).2
    induction k with
    | zero =>
      constructor
      · simp [nextLogTime, fireTime]
      · simp only [nextLogTime, fireTime]
        linarith
    | succ k ih =>
      constructor
      · rw [fireTime]
        exact le_max_left _ _
      · rw [fireTime]
        apply max_le
        · rw [nextLogTime]
          have := ih.1
          linarith
        · rw [nextLogTime]
          have h1 := ih.2
          have h2 := (hlat k).2
          linarith

/-- Witness for C8: `start = 0`, `interval = 10`, constant latency `1`:
after 3 ticks the schedule is exactly 30 and tick 3 fires within 1 of it. -/
theorem absolute_schedule_drift_witness :
    nextLogTime 0 10 3 = 0 + (3 : Nat) * 10 ∧
    nextLogTime 0 10 3 ≤ fireTime 0 10 (fun _ => 1) 3 ∧
    fireTime 0 10 (fun _ => 1) 3 ≤ nextLogTime 0 10 3 + 1 :=
  ⟨(absolute_schedule_drift 0 10 1 (fun _ => 1)).1 3,
   ((absolute_schedule_drift 0 10 1 (fun _ => 1)).2
      (fun _ => by norm_num) (by norm_num) 3).1,
   ((absolute_schedule_drift 0 10 1 (fun _ => 1)).2
      (fun _ => by norm_num) (by norm_num) 3).2⟩

end Charging
